import Mathlib

/-!
Verification development for the personal-finance tracking API
(authentication, authorization, transaction workflow).

The definitions below are a shallow embedding of the TypeScript source:
* `fieldErrors` / `validateTransaction` embed `TransactionToCreateSchema`
  and `validateTransaction` from `categories.db.ts`;
* `createTransaction` embeds `createTransaction` from `categories.db.ts`
  (slug generation and dropping of `target_user_id`);
* `postTransactionsHandler` embeds the `POST /transactions` route of the
  index file that carries the admin-override logic;
* `postTransactionsHandlerV1` embeds the `POST /transactions` route of
  `src/index.ts` (no admin override, admin skips the ownership check);
* `authMiddleware`, `loginHandler` embed `auth.ts`; the token service
  (the external `jsonwebtoken` library) is modelled from the spec.

JavaScript numbers that hold monetary amounts are modelled as rationals;
integer ids as `Int`; timestamps (`Date.now()`) as `Nat` milliseconds.
JavaScript truthiness is modelled explicitly where the source relies on
it (`!decoded?.id`, `validatedData.target_user_id`, missing login
fields).
-/

/-- Row of the `users` table (fields used by the embedded code). The
`admin` column is nullable in the source, which applies `?? false`. -/
structure User where
  id : Int
  username : String
  email : String
  password : String
  admin : Option Bool
  slug : String
deriving DecidableEq

/-- Row of the `accounts` table. -/
structure Account where
  id : Int
  user_id : Int
  account_name : String
  slug : String
deriving DecidableEq

/-- Row of the `transactions` table as persisted by `createTransaction`.
Note there is no `target_user_id` field: that field is removed before the
database insert (`const { target_user_id, ...dbData } = transactionData`). -/
structure TxRecord where
  user_id : Int
  account_id : Int
  payment_method_id : Int
  transaction_type : String
  category : String
  amount : ℚ
  description : String
  slug : String
deriving DecidableEq

/-- The database state visible to the embedded handlers. -/
structure DB where
  users : List User
  accounts : List Account
  transactions : List TxRecord
deriving DecidableEq

/-- Request body for `POST /transactions`, typed as in
`TransactionToCreateSchema`; `target_user_id` is the optional admin
override field. -/
structure TxPayload where
  account_id : Int
  payment_method_id : Int
  transaction_type : String
  category : String
  amount : ℚ
  description : String
  target_user_id : Option Int
deriving DecidableEq

/-- The category enumeration of `TransactionToCreateSchema`. -/
def categoryEnum : List String :=
  ["matur", "íbúð", "samgöngur", "afþreying", "laun", "annað"]

/-- One Zod check: empty issue list when `c` holds, otherwise the
per-field issue `e`. -/
def zodCheck (c : Prop) [Decidable c] (e : String × String) : List (String × String) :=
  if c then [] else [e]

/-- Issues contributed by the `target_user_id: z.number().int().positive().optional()`
field: absent is fine, present must be positive. -/
def targetErrs : Option Int → List (String × String)
  | none => []
  | some t => zodCheck (0 < t) ("target_user_id", "Number must be greater than 0")

/-- Per-field issues of `TransactionToCreateSchema.safeParse`, embedding
each Zod check of the schema in order. -/
def fieldErrors (p : TxPayload) : List (String × String) :=
  zodCheck (0 < p.account_id) ("account_id", "Account ID must be a positive integer")
    ++ zodCheck (p.payment_method_id = 1 ∨ p.payment_method_id = 2 ∨ p.payment_method_id = 3)
        ("payment_method_id", "Payment method ID must be 1, 2, or 3")
    ++ zodCheck (p.transaction_type = "income" ∨ p.transaction_type = "expense")
        ("transaction_type", "Type is required")
    ++ zodCheck (p.category ∈ categoryEnum) ("category", "Category is required")
    ++ zodCheck (0 < p.amount) ("amount", "Amount must be > 0")
    ++ zodCheck (p.amount ≤ 1000000) ("amount", "Number must be less than or equal to 1000000")
    ++ zodCheck (1 ≤ p.description.length) ("description", "Description required")
    ++ zodCheck (p.description.length ≤ 1024)
        ("description", "String must contain at most 1024 characters")
    ++ targetErrs p.target_user_id

/-- Embeds `validateTransaction` of `categories.db.ts`: the payload is
accepted exactly when `safeParse` reports no issue. -/
def validateTransaction (p : TxPayload) : Bool :=
  (fieldErrors p).isEmpty

/-- Validated payload together with the `user_id` chosen by the route
handler (`FullTransactionData` in the source). -/
structure FullTransactionData where
  account_id : Int
  payment_method_id : Int
  transaction_type : String
  category : String
  amount : ℚ
  description : String
  target_user_id : Option Int
  user_id : Int
deriving DecidableEq

/-- Attach the handler-chosen `user_id` to a validated payload
(`const dataToCreate = { ...validatedData, user_id: finalUserId }`). -/
def toFullData (p : TxPayload) (uid : Int) : FullTransactionData :=
  { account_id := p.account_id, payment_method_id := p.payment_method_id,
    transaction_type := p.transaction_type, category := p.category,
    amount := p.amount, description := p.description,
    target_user_id := p.target_user_id, user_id := uid }

/-- Embeds `createTransaction` of `categories.db.ts`: builds the slug
`tx-<user_id>-<Date.now()>` and inserts the data with `target_user_id`
removed (`TxRecord` has no such field). `now` is the `Date.now()`
reading in milliseconds. -/
def createTransaction (d : FullTransactionData) (now : Nat) : TxRecord :=
  { user_id := d.user_id, account_id := d.account_id,
    payment_method_id := d.payment_method_id,
    transaction_type := d.transaction_type, category := d.category,
    amount := d.amount, description := d.description,
    slug := "tx-" ++ toString d.user_id ++ "-" ++ toString now }

/-- The identity context attached by `authMiddleware`. -/
structure AuthUser where
  id : Int
  username : String
  admin : Bool
deriving DecidableEq

/-- Responses of the `POST /transactions` handlers. -/
inductive PostTxResponse where
  | validationError (details : List (String × String))
  | targetNotFound
  | accountForbidden
  | created (tx : TxRecord)
deriving DecidableEq

/-- HTTP status of a `POST /transactions` response. -/
def statusOf : PostTxResponse → Nat
  | .validationError _ => 400
  | .targetNotFound => 404
  | .accountForbidden => 403
  | .created _ => 201

/-- JavaScript truthiness of `validatedData.target_user_id`: present and
nonzero. -/
def targetTruthy : Option Int → Bool
  | none => false
  | some t => t != 0

/-- Embeds the `POST /transactions` route with the admin-override logic:
validate; if the requester is an admin and supplies a truthy
`target_user_id`, resolve it (404 when absent) and create the
transaction for that user with no account-ownership check; otherwise
check that `account_id` belongs to the requester (403 when it does not
exist or is not theirs) and create the transaction for the requester. -/
def postTransactionsHandler (db : DB) (u : AuthUser) (p : TxPayload) (now : Nat) :
    PostTxResponse × DB :=
  if validateTransaction p then
    if u.admin && targetTruthy p.target_user_id then
      let finalUserId := p.target_user_id.getD 0
      match db.users.find? (fun usr => usr.id == finalUserId) with
      | none => (.targetNotFound, db)
      | some _ =>
        let tx := createTransaction (toFullData p finalUserId) now
        (.created tx, { db with transactions := db.transactions ++ [tx] })
    else
      match db.accounts.find? (fun a => a.id == p.account_id && a.user_id == u.id) with
      | none => (.accountForbidden, db)
      | some _ =>
        let tx := createTransaction (toFullData p u.id) now
        (.created tx, { db with transactions := db.transactions ++ [tx] })
  else (.validationError (fieldErrors p), db)

/-- Embeds the `POST /transactions` route of `src/index.ts`: validate,
always use the requester's id as `user_id`, and skip the
account-ownership check only when the requester is an admin. -/
def postTransactionsHandlerV1 (db : DB) (u : AuthUser) (p : TxPayload) (now : Nat) :
    PostTxResponse × DB :=
  if validateTransaction p then
    if u.admin then
      let tx := createTransaction (toFullData p u.id) now
      (.created tx, { db with transactions := db.transactions ++ [tx] })
    else
      match db.accounts.find? (fun a => a.id == p.account_id && a.user_id == u.id) with
      | none => (.accountForbidden, db)
      | some _ =>
        let tx := createTransaction (toFullData p u.id) now
        (.created tx, { db with transactions := db.transactions ++ [tx] })
  else (.validationError (fieldErrors p), db)

/-- Decoded JWT payload as seen by `jwt.verify`; every field may be
missing in a token signed by a third party, so each is optional. -/
structure JWTPayload where
  id : Option Int
  username : Option String
  admin : Option Bool
deriving DecidableEq

/-- Modelled from the spec: a signed stateless token of the Token
Service (section 4.1; the `jsonwebtoken` library is external to the
repository). It carries the claims payload, the secret it was signed
with, the issue time and the expiry time. -/
structure Token where
  payload : JWTPayload
  secret : String
  iat : Nat
  exp : Nat
deriving DecidableEq

/-- Modelled from the spec: `jwt.sign(payload, secret, { expiresIn })`
encodes the payload with expiry `issued-at + configured lifetime`. -/
def jwtSign (p : JWTPayload) (secret : String) (now lifetime : Nat) : Token :=
  { payload := p, secret := secret, iat := now, exp := now + lifetime }

/-- Outcome of `jwt.verify`: claims, or a failure kind. -/
inductive VerifyResult where
  | ok (p : JWTPayload)
  | expired
  | invalid
deriving DecidableEq

/-- Modelled from the spec: `jwt.verify(token, secret)` fails `invalid`
on a signature/secret mismatch, fails `expired` past the expiry time,
and otherwise yields the claims unchanged. -/
def jwtVerify (t : Token) (secret : String) (now : Nat) : VerifyResult :=
  if t.secret != secret then .invalid
  else if t.exp ≤ now then .expired
  else .ok t.payload

/-- A bearer token as transported on the wire: either a parseable signed
token or a malformed string. -/
inductive WireToken where
  | parsed (t : Token)
  | malformed (s : String)
deriving DecidableEq

/-- Modelled from the spec: verification of a wire token; a malformed
token fails `invalid` (in `jsonwebtoken` a `JsonWebTokenError`, whose
name is not `TokenExpiredError`). -/
def jwtVerifyWire : WireToken → String → Nat → VerifyResult
  | .malformed _, _, _ => .invalid
  | .parsed t, secret, now => jwtVerify t secret now

/-- The `Authorization` header of a request: missing, present but not of
the form `Bearer <token>`, or a bearer token. -/
inductive AuthHeader where
  | missing
  | nonBearer (s : String)
  | bearer (wt : WireToken)
deriving DecidableEq

/-- Outcome of `authMiddleware`: one of its four 401 failures or the
identity context handed to the downstream handler. -/
inductive AuthResult where
  | headerMissing
  | payloadInvalid
  | tokenExpiredErr
  | tokenInvalidErr
  | ok (u : AuthUser)
deriving DecidableEq

/-- Embeds `authMiddleware` of `auth.ts`: reject a missing or non-Bearer
header; verify the token, mapping `TokenExpiredError` and every other
verification error to distinct 401 bodies; reject a structurally invalid
payload (falsy `id` or `username`); otherwise attach the identity
context, defaulting a missing `admin` claim to `false`. -/
def authMiddleware (h : AuthHeader) (secret : String) (now : Nat) : AuthResult :=
  match h with
  | .missing => .headerMissing
  | .nonBearer _ => .headerMissing
  | .bearer wt =>
    match jwtVerifyWire wt secret now with
    | .expired => .tokenExpiredErr
    | .invalid => .tokenInvalidErr
    | .ok p =>
      match p.id, p.username with
      | some i, some uname =>
        if i == 0 || uname == "" then .payloadInvalid
        else .ok { id := i, username := uname, admin := p.admin.getD false }
      | some _, none => .payloadInvalid
      | none, _ => .payloadInvalid

/-- HTTP status written by `authMiddleware` itself: every failure is
401; on success the middleware writes no status and calls `next()`. -/
def authFailureStatus : AuthResult → Option Nat
  | .ok _ => none
  | _ => some 401

/-- Error body written by `authMiddleware` on failure. -/
def authFailureBody : AuthResult → Option String
  | .headerMissing => some "Authorization header missing or invalid"
  | .payloadInvalid => some "Invalid token payload"
  | .tokenExpiredErr => some "Token expired"
  | .tokenInvalidErr => some "Invalid token"
  | .ok _ => none

/-- Whether the downstream handler runs (`next()` is invoked). -/
def downstreamInvoked : AuthResult → Bool
  | .ok _ => true
  | _ => false

/-- Embeds `findUserByUsernameInternal` of `auth.ts`
(`prisma.users.findUnique({ where: { username } })`). -/
def findUserByUsername (db : DB) (uname : String) : Option User :=
  db.users.find? (fun u => u.username == uname)

/-- Responses of the `POST /users/login` route. -/
inductive LoginResult where
  | missingFields
  | invalidCredentials
  | success (u : User) (token : Token) (expiresIn : Nat)
deriving DecidableEq

/-- HTTP status of a login response. -/
def loginStatus : LoginResult → Nat
  | .missingFields => 400
  | .invalidCredentials => 401
  | .success _ _ _ => 200

/-- Error body of a login failure. -/
def loginBody : LoginResult → Option String
  | .missingFields => some "Username and password required"
  | .invalidCredentials => some "Invalid credentials"
  | .success _ _ _ => none

/-- Embeds the `POST /users/login` route of `auth.ts`. `compare` stands
for `bcrypt.compare` (external library): it receives the submitted
password and the stored hash. A missing body field is the empty string
(JavaScript falsiness of the destructured field). Unknown username and
wrong password both answer `invalidCredentials`; on success a token is
signed over `{ id, username, admin ?? false }`. -/
def loginHandler (db : DB) (compare : String → String → Bool)
    (uname pw : String) (secret : String) (now lifetime : Nat) : LoginResult :=
  if uname == "" || pw == "" then .missingFields
  else
    match findUserByUsername db uname with
    | none => .invalidCredentials
    | some usr =>
      if compare pw usr.password then
        .success usr
          (jwtSign { id := some usr.id, username := some usr.username,
                     admin := some (usr.admin.getD false) } secret now lifetime)
          lifetime
      else .invalidCredentials

/-- Big-endian decimal digit characters of a natural number; the
recursion that `Nat.toDigitsCore` performs through its fuel. -/
def digitsBE (n : Nat) : List Char :=
  if h : n < 10 then [Nat.digitChar n]
  else digitsBE (n / 10) ++ [Nat.digitChar (n % 10)]
decreasing_by exact Nat.div_lt_self (by omega) (by omega)

theorem toDigitsCore_eq_digitsBE (f : Nat) :
    ∀ n l, n < f → Nat.toDigitsCore 10 f n l = digitsBE n ++ l := by
  induction f with
  | zero => intro n l h; omega
  | succ f ih =>
    intro n l h
    by_cases h10 : n / 10 = 0
    · have hn : n < 10 := by omega
      rw [Nat.toDigitsCore]
      simp only [h10, if_pos rfl]
      rw [digitsBE]
      simp [hn, Nat.mod_eq_of_lt hn]
    · have hn : ¬ n < 10 := by
        intro hlt
        exact h10 (Nat.div_eq_of_lt hlt)
      have hdiv : n / 10 < f := by
        have h1 : n / 10 < n := Nat.div_lt_self (by omega) (by omega)
        omega
      rw [Nat.toDigitsCore]
      simp only [h10, if_neg h10]
      rw [ih (n / 10) (Nat.digitChar (n % 10) :: l) hdiv]
      conv_rhs => rw [digitsBE]
      simp [hn]

theorem natRepr_eq_digitsBE (n : Nat) : Nat.repr n = (digitsBE n).asString := by
  rw [Nat.repr, Nat.toDigits, toDigitsCore_eq_digitsBE (n + 1) n [] (by omega)]
  simp

/-- Numeric value of a decimal digit character. -/
def digitVal (c : Char) : Nat := c.toNat - 48

/-- Decode a big-endian decimal digit string. -/
def decodeNat (l : List Char) : Nat :=
  l.foldl (fun acc c => 10 * acc + digitVal c) 0

theorem digitVal_digitChar (d : Nat) (h : d < 10) :
    digitVal (Nat.digitChar d) = d := by
  interval_cases d <;> decide

theorem decodeNat_digitsBE (n : Nat) : decodeNat (digitsBE n) = n := by
  induction n using Nat.strong_induction_on with
  | _ n ih =>
    by_cases h : n < 10
    · rw [digitsBE]
      simp only [h, dite_true]
      simp [decodeNat, digitVal_digitChar n h]
    · rw [digitsBE]
      simp only [h, dite_false]
      have hdiv : n / 10 < n := Nat.div_lt_self (by omega) (by omega)
      have hmod : n % 10 < 10 := Nat.mod_lt n (by omega)
      simp only [decodeNat, List.foldl_append, List.foldl_cons, List.foldl_nil]
      have : (digitsBE (n / 10)).foldl (fun acc c => 10 * acc + digitVal c) 0 = n / 10 :=
        ih (n / 10) hdiv
      rw [this, digitVal_digitChar (n % 10) hmod]
      omega

theorem natRepr_injective {m n : Nat} (h : Nat.repr m = Nat.repr n) : m = n := by
  rw [natRepr_eq_digitsBE, natRepr_eq_digitsBE] at h
  have hd : digitsBE m = digitsBE n := by
    have := congrArg String.data h
    simpa [List.asString] using this
  calc m = decodeNat (digitsBE m) := (decodeNat_digitsBE m).symm
    _ = decodeNat (digitsBE n) := by rw [hd]
    _ = n := decodeNat_digitsBE n

theorem natToString_injective {m n : Nat} (h : toString m = toString n) : m = n :=
  natRepr_injective h

/-- Constraint the schema places on the optional `target_user_id`. -/
def targetOk : Option Int → Prop
  | none => True
  | some t => 0 < t

instance (o : Option Int) : Decidable (targetOk o) :=
  match o with
  | none => isTrue trivial
  | some t => inferInstanceAs (Decidable (0 < t))

theorem zodCheck_eq_nil (c : Prop) [Decidable c] (e : String × String) :
    zodCheck c e = [] ↔ c := by
  unfold zodCheck
  split <;> simp_all

theorem targetErrs_eq_nil (o : Option Int) : targetErrs o = [] ↔ targetOk o := by
  cases o <;> simp [targetErrs, targetOk, zodCheck_eq_nil]

/-- The full acceptance condition of `TransactionToCreateSchema`,
including the constraint on the optional `target_user_id`. -/
def validConditions (p : TxPayload) : Prop :=
  0 < p.account_id ∧
  (p.payment_method_id = 1 ∨ p.payment_method_id = 2 ∨ p.payment_method_id = 3) ∧
  (p.transaction_type = "income" ∨ p.transaction_type = "expense") ∧
  p.category ∈ categoryEnum ∧
  0 < p.amount ∧ p.amount ≤ 1000000 ∧
  1 ≤ p.description.length ∧ p.description.length ≤ 1024 ∧
  targetOk p.target_user_id

instance (p : TxPayload) : Decidable (validConditions p) := by
  unfold validConditions
  infer_instance

/-- The acceptance condition exactly as the claim words it: the six
enumerated field conditions, with no constraint on `target_user_id`. -/
def claimedConditions (p : TxPayload) : Prop :=
  0 < p.account_id ∧
  (p.payment_method_id = 1 ∨ p.payment_method_id = 2 ∨ p.payment_method_id = 3) ∧
  (p.transaction_type = "income" ∨ p.transaction_type = "expense") ∧
  p.category ∈ categoryEnum ∧
  0 < p.amount ∧ p.amount ≤ 1000000 ∧
  1 ≤ p.description.length ∧ p.description.length ≤ 1024

instance (p : TxPayload) : Decidable (claimedConditions p) := by
  unfold claimedConditions
  infer_instance

theorem validateTransaction_iff (p : TxPayload) :
    validateTransaction p = true ↔ validConditions p := by
  unfold validateTransaction validConditions fieldErrors
  rw [List.isEmpty_iff]
  simp only [List.append_eq_nil, zodCheck_eq_nil, targetErrs_eq_nil]
  tauto

theorem natRepr_data_eq (n : Nat) : (Nat.repr n).data = digitsBE n := by
  rw [natRepr_eq_digitsBE]
  rfl

theorem natToString_data_injective {m n : Nat}
    (h : (toString m).data = (toString n).data) : m = n := by
  have hm : (toString m).data = digitsBE m := natRepr_data_eq m
  have hn : (toString n).data = digitsBE n := natRepr_data_eq n
  rw [hm, hn] at h
  calc m = decodeNat (digitsBE m) := (decodeNat_digitsBE m).symm
    _ = decodeNat (digitsBE n) := by rw [h]
    _ = n := decodeNat_digitsBE n

/-- Sample validated data for concurrency scenarios: user 7 records an
income transaction. -/
def txDataA : FullTransactionData :=
  { account_id := 1, payment_method_id := 1, transaction_type := "income",
    category := "laun", amount := 5, description := "first deposit",
    target_user_id := none, user_id := 7 }

/-- A second, different creation request by the same user 7. -/
def txDataB : FullTransactionData :=
  { txDataA with description := "second deposit" }

/-- C8 counterexample: two concurrent transaction creations by the same
identity (user 7) whose `Date.now()` readings fall in the same
millisecond produce the same slug `tx-7-1712000000000`, so the persisted
records are not distinct in slug — the claim's unconditional uniqueness
fails; slug uniqueness relies entirely on the timestamps differing. -/
theorem c8_counterexample_same_millisecond_collision :
    txDataA ≠ txDataB ∧
    (createTransaction txDataA 1712000000000).slug =
      (createTransaction txDataB 1712000000000).slug := by
  constructor
  · intro h
    have := congrArg FullTransactionData.description h
    simp [txDataA, txDataB] at this
  · rfl

/-- C8 (amended): two transaction creations by the same identity produce
distinct records with distinct slugs whenever their `Date.now()`
readings differ; with equal readings the slugs collide (the latent race
the spec acknowledges in section 5). -/
theorem c8_distinct_timestamps_distinct_slugs
    (d₁ d₂ : FullTransactionData) (now₁ now₂ : Nat)
    (huser : d₁.user_id = d₂.user_id) (hnow : now₁ ≠ now₂) :
    (createTransaction d₁ now₁).slug ≠ (createTransaction d₂ now₂).slug ∧
    createTransaction d₁ now₁ ≠ createTransaction d₂ now₂ := by
  have hslug : (createTransaction d₁ now₁).slug ≠ (createTransaction d₂ now₂).slug := by
    intro h
    apply hnow
    apply natToString_data_injective
    have hdata := congrArg String.data h
    simp only [createTransaction, huser, String.data_append, List.append_assoc] at hdata
    exact List.append_cancel_left (List.append_cancel_left (List.append_cancel_left hdata))
  exact ⟨hslug, fun h => hslug (congrArg TxRecord.slug h)⟩

/-- C8 witness: the amended theorem at user 7 with readings one
millisecond apart. -/
theorem c8_witness :
    txDataA.user_id = txDataB.user_id ∧ (1712000000000 : Nat) ≠ 1712000000001 ∧
    (createTransaction txDataA 1712000000000).slug ≠
      (createTransaction txDataB 1712000000001).slug :=
  ⟨rfl, by decide,
    (c8_distinct_timestamps_distinct_slugs txDataA txDataB 1712000000000 1712000000001
      rfl (by decide)).1⟩

/-- A payload meeting every condition the claim enumerates, but whose
supplied `target_user_id` is `0` (not a positive integer). -/
def pBadTarget : TxPayload :=
  { account_id := 1, payment_method_id := 1, transaction_type := "income",
    category := "matur", amount := 5, description := "lunch",
    target_user_id := some 0 }

/-- C7 counterexample: `pBadTarget` satisfies the claim's full list of
acceptance conditions (positive `account_id`, known `payment_method_id`,
enumerated type and category, bounded positive amount, bounded non-empty
description), yet `validateTransaction` rejects it, because the schema
additionally requires any supplied `target_user_id` to be a positive
integer — so the claim's "accepts iff" is false at this payload. -/
theorem c7_counterexample_target_breaks_iff :
    claimedConditions pBadTarget ∧ validateTransaction pBadTarget = false := by
  constructor
  · decide
  · decide

/-- C7 (amended): validation accepts a payload iff `account_id` is a
positive integer, `payment_method_id` is one of 1, 2, 3,
`transaction_type` is income or expense, `category` is in the fixed
enumerated set, the amount is strictly positive and at most 1,000,000,
the description is non-empty and at most 1024 long, and any supplied
`target_user_id` is a positive integer; any violation yields the 400
`ValidationError` response carrying the per-field issue list, with
nothing persisted. -/
theorem c7_validation_characterization (p : TxPayload) :
    (validateTransaction p = true ↔ validConditions p) ∧
    (∀ (db : DB) (u : AuthUser) (now : Nat), validateTransaction p = false →
      postTransactionsHandler db u p now = (.validationError (fieldErrors p), db) ∧
      postTransactionsHandlerV1 db u p now = (.validationError (fieldErrors p), db) ∧
      statusOf (.validationError (fieldErrors p)) = 400) := by
  refine ⟨validateTransaction_iff p, fun db u now hbad => ?_⟩
  refine ⟨?_, ?_, rfl⟩
  · unfold postTransactionsHandler
    simp [hbad]
  · unfold postTransactionsHandlerV1
    simp [hbad]

/-- C7 witness: the characterization applied to `pBadTarget` over an
empty database. -/
theorem c7_witness :
    validateTransaction pBadTarget = false ∧
    postTransactionsHandler ⟨[], [], []⟩ ⟨1, "jonas", false⟩ pBadTarget 1000 =
      (.validationError (fieldErrors pBadTarget), ⟨[], [], []⟩) :=
  ⟨by decide,
    ((c7_validation_characterization pBadTarget).2 ⟨[], [], []⟩ ⟨1, "jonas", false⟩ 1000
      (by decide)).1⟩

theorem find?_account_none (db : DB) (acct uid : Int)
    (h : ∀ a ∈ db.accounts, ¬(a.id = acct ∧ a.user_id = uid)) :
    db.accounts.find? (fun a => a.id == acct && a.user_id == uid) = none := by
  rw [List.find?_eq_none]
  intro a ha
  simpa using h a ha

/-- C1: for every authenticated non-admin identity posting a validated
transaction whose `account_id` does not resolve to an account they own —
whether it does not exist at all or belongs to someone else — both
embedded handlers answer the 403 `AuthorizationError` response, the
response is the same fixed value in both cases (so the two cases are
indistinguishable), and the database is unchanged: no transaction is
persisted. -/
theorem c1_nonadmin_unowned_account_forbidden
    (db : DB) (u : AuthUser) (p : TxPayload) (now : Nat)
    (hadmin : u.admin = false)
    (hvalid : validateTransaction p = true)
    (hacct : ∀ a ∈ db.accounts, ¬(a.id = p.account_id ∧ a.user_id = u.id)) :
    postTransactionsHandler db u p now = (.accountForbidden, db) ∧
    postTransactionsHandlerV1 db u p now = (.accountForbidden, db) ∧
    statusOf .accountForbidden = 403 ∧
    ∀ db₂ : DB, (∀ a ∈ db₂.accounts, ¬(a.id = p.account_id ∧ a.user_id = u.id)) →
      (postTransactionsHandler db u p now).1 = (postTransactionsHandler db₂ u p now).1 := by
  have hmain : ∀ db' : DB, (∀ a ∈ db'.accounts, ¬(a.id = p.account_id ∧ a.user_id = u.id)) →
      postTransactionsHandler db' u p now = (.accountForbidden, db') := by
    intro db' h'
    unfold postTransactionsHandler
    simp [hvalid, hadmin, find?_account_none db' p.account_id u.id h']
  refine ⟨hmain db hacct, ?_, rfl, fun db₂ h₂ => ?_⟩
  · unfold postTransactionsHandlerV1
    simp [hvalid, hadmin, find?_account_none db p.account_id u.id hacct]
  · rw [hmain db hacct, hmain db₂ h₂]

/-- C1 witness: the non-admin "jonas" (id 1) posts a valid payload
against account 42; in `dbOwned` the account exists but belongs to
"katrin" (id 2), in the empty database it does not exist; both runs are
rejected with the same 403 response and neither database changes. -/
theorem c1_witness :
    (postTransactionsHandler
        ⟨[], [⟨42, 2, "savings", "acc-42"⟩], []⟩ ⟨1, "jonas", false⟩
        { pBadTarget with target_user_id := none, account_id := 42 } 1000 =
      (.accountForbidden, ⟨[], [⟨42, 2, "savings", "acc-42"⟩], []⟩)) ∧
    (postTransactionsHandler ⟨[], [], []⟩ ⟨1, "jonas", false⟩
        { pBadTarget with target_user_id := none, account_id := 42 } 1000 =
      (.accountForbidden, ⟨[], [], []⟩)) :=
  ⟨(c1_nonadmin_unowned_account_forbidden
      ⟨[], [⟨42, 2, "savings", "acc-42"⟩], []⟩ ⟨1, "jonas", false⟩
      { pBadTarget with target_user_id := none, account_id := 42 } 1000
      rfl (by decide) (by decide)).1,
   (c1_nonadmin_unowned_account_forbidden ⟨[], [], []⟩ ⟨1, "jonas", false⟩
      { pBadTarget with target_user_id := none, account_id := 42 } 1000
      rfl (by decide) (by decide)).1⟩

theorem targetTruthy_of_valid (p : TxPayload) (t : Int)
    (htgt : p.target_user_id = some t) (hvalid : validateTransaction p = true) :
    targetTruthy p.target_user_id = true := by
  have hc := (validateTransaction_iff p).mp hvalid
  have hok : targetOk p.target_user_id := hc.2.2.2.2.2.2.2.2
  rw [htgt] at hok ⊢
  have : (0 : Int) < t := hok
  simp [targetTruthy]
  omega

/-- C2: for every admin posting a validated transaction with a
`target_user_id` that resolves to no existing identity, the embedded
handler answers the 404 `NotFound` response and the database is
unchanged: no transaction is persisted. -/
theorem c2_admin_target_missing_not_found
    (db : DB) (u : AuthUser) (p : TxPayload) (t : Int) (now : Nat)
    (hadmin : u.admin = true)
    (htgt : p.target_user_id = some t)
    (hvalid : validateTransaction p = true)
    (husers : ∀ usr ∈ db.users, usr.id ≠ t) :
    postTransactionsHandler db u p now = (.targetNotFound, db) ∧
    statusOf .targetNotFound = 404 := by
  have htruthy := targetTruthy_of_valid p t htgt hvalid
  have hfind : db.users.find? (fun usr => usr.id == (p.target_user_id.getD 0)) = none := by
    rw [List.find?_eq_none]
    intro usr husr
    rw [htgt]
    simpa using husers usr husr
  refine ⟨?_, rfl⟩
  unfold postTransactionsHandler
  simp [hvalid, hadmin, htruthy, hfind]

/-- A valid payload supplying the admin override `target_user_id = 2`. -/
def pTarget2 : TxPayload :=
  { account_id := 42, payment_method_id := 1, transaction_type := "income",
    category := "laun", amount := 5, description := "salary",
    target_user_id := some 2 }

/-- Sample identity "katrin", id 2. -/
def katrin : User :=
  { id := 2, username := "katrin", email := "katrin@x.com",
    password := "hash2", admin := some false, slug := "katrin-2" }

/-- C2 witness: the admin (id 17) posts `pTarget2` while no identity
with id 2 exists; the handler answers 404 and the database is
unchanged. -/
theorem c2_witness :
    postTransactionsHandler ⟨[], [], []⟩ ⟨17, "admin", true⟩ pTarget2 1000 =
      (.targetNotFound, ⟨[], [], []⟩) :=
  (c2_admin_target_missing_not_found ⟨[], [], []⟩ ⟨17, "admin", true⟩ pTarget2 2 1000
    rfl rfl (by decide) (by decide)).1

/-- C3: for every admin posting a validated transaction whose
`target_user_id` resolves to an existing identity, the embedded handler
answers 201 with the created transaction, the persisted transaction's
`user_id` is the target's id (not the admin's own id whenever they
differ), the new database is the old one with exactly that transaction
appended, and no account-ownership check is performed: the response is
the same for every contents of the accounts table. -/
theorem c3_admin_override_success
    (db : DB) (u : AuthUser) (p : TxPayload) (t : Int) (now : Nat) (usr : User)
    (hadmin : u.admin = true)
    (htgt : p.target_user_id = some t)
    (hvalid : validateTransaction p = true)
    (husr : db.users.find? (fun x => x.id == t) = some usr) :
    postTransactionsHandler db u p now =
      (.created (createTransaction (toFullData p t) now),
       { db with transactions :=
          db.transactions ++ [createTransaction (toFullData p t) now] }) ∧
    (createTransaction (toFullData p t) now).user_id = t ∧
    statusOf (.created (createTransaction (toFullData p t) now)) = 201 ∧
    (u.id ≠ t → (createTransaction (toFullData p t) now).user_id ≠ u.id) ∧
    (∀ accts₁ accts₂ : List Account,
      (postTransactionsHandler { db with accounts := accts₁ } u p now).1 =
      (postTransactionsHandler { db with accounts := accts₂ } u p now).1) := by
  have htruthy := targetTruthy_of_valid p t htgt hvalid
  have hmain : ∀ accts : List Account,
      postTransactionsHandler { db with accounts := accts } u p now =
        (.created (createTransaction (toFullData p t) now),
         { db with
           accounts := accts
           transactions := db.transactions ++ [createTransaction (toFullData p t) now] }) := by
    intro accts
    have htruthy2 : targetTruthy (some t) = true := by
      rw [htgt] at htruthy
      exact htruthy
    unfold postTransactionsHandler
    simp [hvalid, hadmin, htgt, htruthy2, husr]
  have hdb : postTransactionsHandler db u p now =
      (.created (createTransaction (toFullData p t) now),
       { db with transactions := db.transactions ++ [createTransaction (toFullData p t) now] }) := by
    have := hmain db.accounts
    simpa using this
  refine ⟨hdb, rfl, rfl, fun hne h => hne ?_, fun a₁ a₂ => by rw [hmain a₁, hmain a₂]⟩
  exact h.symm

/-- C3 witness: the admin (id 17) posts `pTarget2` for the existing
identity "katrin" (id 2): 201, and the persisted transaction's owner id
is 2, not 17. -/
theorem c3_witness :
    postTransactionsHandler ⟨[katrin], [], []⟩ ⟨17, "admin", true⟩ pTarget2 1000 =
      (.created (createTransaction (toFullData pTarget2 2) 1000),
       ⟨[katrin], [],
        [createTransaction (toFullData pTarget2 2) 1000]⟩) ∧
    (createTransaction (toFullData pTarget2 2) 1000).user_id = 2 :=
  ⟨(c3_admin_override_success ⟨[katrin], [], []⟩ ⟨17, "admin", true⟩ pTarget2 2 1000 katrin
      rfl rfl (by decide) (by decide)).1,
   (c3_admin_override_success ⟨[katrin], [], []⟩ ⟨17, "admin", true⟩ pTarget2 2 1000 katrin
      rfl rfl (by decide) (by decide)).2.1⟩

theorem validConditions_strip_target (p : TxPayload) (h : validConditions p) :
    validConditions { p with target_user_id := none } := by
  obtain ⟨h1, h2, h3, h4, h5, h6, h7, h8, _⟩ := h
  exact ⟨h1, h2, h3, h4, h5, h6, h7, h8, trivial⟩

/-- C10: for every authenticated non-admin request posting a validated
transaction, the supplied `target_user_id` has no effect on the
handler's behavior: the whole outcome (response and database) equals the
outcome on the same payload with `target_user_id` removed, any persisted
transaction's `user_id` is the requester's own id, and
`createTransaction` strips `target_user_id` before the insert — its
output does not depend on that field at all (the persisted `TxRecord`
has no such field). -/
theorem c10_nonadmin_target_ignored
    (db : DB) (u : AuthUser) (p : TxPayload) (now : Nat)
    (hadmin : u.admin = false)
    (hvalid : validateTransaction p = true) :
    postTransactionsHandler db u p now =
      postTransactionsHandler db u { p with target_user_id := none } now ∧
    (∀ tx db', postTransactionsHandler db u p now = (.created tx, db') →
      tx.user_id = u.id) ∧
    (∀ (d : FullTransactionData) (o₁ o₂ : Option Int) (m : Nat),
      createTransaction { d with target_user_id := o₁ } m =
        createTransaction { d with target_user_id := o₂ } m) := by
  have hvalid' : validateTransaction { p with target_user_id := none } = true :=
    (validateTransaction_iff _).mpr
      (validConditions_strip_target p ((validateTransaction_iff p).mp hvalid))
  refine ⟨?_, ?_, fun d o₁ o₂ m => rfl⟩
  · unfold postTransactionsHandler
    cases hfind : db.accounts.find? (fun a => a.id == p.account_id && a.user_id == u.id) with
    | none => simp [hvalid, hvalid', hadmin, hfind, createTransaction, toFullData]
    | some a => simp [hvalid, hvalid', hadmin, hfind, createTransaction, toFullData]
  · intro tx db' h
    unfold postTransactionsHandler at h
    cases hfind : db.accounts.find? (fun a => a.id == p.account_id && a.user_id == u.id) with
    | none => simp [hvalid, hadmin, hfind] at h
    | some a =>
      simp [hvalid, hadmin, hfind] at h
      rw [← h.1]
      rfl

/-- C10 witness: the non-admin "jonas" (id 1), owning account 42, posts
a valid payload carrying `target_user_id = 2`: the outcome equals the
outcome without the field, and the persisted transaction's owner id is
1. -/
theorem c10_witness :
    (postTransactionsHandler ⟨[katrin], [⟨42, 1, "cash", "acc-42"⟩], []⟩
        ⟨1, "jonas", false⟩ pTarget2 1000 =
      postTransactionsHandler ⟨[katrin], [⟨42, 1, "cash", "acc-42"⟩], []⟩
        ⟨1, "jonas", false⟩ { pTarget2 with target_user_id := none } 1000) ∧
    (createTransaction (toFullData pTarget2 1) 1000).user_id = 1 :=
  ⟨(c10_nonadmin_target_ignored ⟨[katrin], [⟨42, 1, "cash", "acc-42"⟩], []⟩
      ⟨1, "jonas", false⟩ pTarget2 1000 rfl (by decide)).1, rfl⟩

/-- C4: round-trip over the Token Service: whenever login succeeds and
returns a token, verifying that token with the same secret at any time
before its expiry yields exactly the claims of the identity that logged
in — its id, its username, and its admin role flag (the stored nullable
flag coerced with `?? false`, as the login route signs it); moreover
`authMiddleware` then attaches exactly that identity context. -/
theorem c4_login_token_roundtrip
    (db : DB) (compare : String → String → Bool) (uname pw secret : String)
    (now lifetime nowV : Nat) (usr : User) (tok : Token) (lt : Nat)
    (hlogin : loginHandler db compare uname pw secret now lifetime = .success usr tok lt)
    (hfresh : nowV < tok.exp) :
    jwtVerify tok secret nowV =
      .ok { id := some usr.id, username := some usr.username,
            admin := some (usr.admin.getD false) } ∧
    (usr.id ≠ 0 → usr.username ≠ "" →
      authMiddleware (.bearer (.parsed tok)) secret nowV =
        .ok { id := usr.id, username := usr.username, admin := usr.admin.getD false }) := by
  unfold loginHandler at hlogin
  split at hlogin
  · exact absurd hlogin (by simp)
  · split at hlogin
    · exact absurd hlogin (by simp)
    · split at hlogin
      · rename_i u₀ heq hcmp
        injection hlogin with husr htok hlt
        subst husr
        subst htok
        have hexp : ¬(now + lifetime ≤ nowV) := by
          simp only [jwtSign] at hfresh
          omega
        have hverify : jwtVerify
            (jwtSign
              { id := some u₀.id, username := some u₀.username,
                admin := some (u₀.admin.getD false) } secret now lifetime) secret nowV =
            .ok { id := some u₀.id, username := some u₀.username,
                  admin := some (u₀.admin.getD false) } := by
          unfold jwtVerify jwtSign
          simp [hexp]
        refine ⟨hverify, fun hid huname => ?_⟩
        unfold authMiddleware
        simp only [jwtVerifyWire, hverify]
        simp [hid, huname]
      · exact absurd hlogin (by simp)

/-- Sample identity "jonas", id 1. -/
def jonas : User :=
  { id := 1, username := "jonas", email := "jonas@x.com",
    password := "hashedsecret123", admin := some false, slug := "jonas-1" }

/-- Claims payload of "jonas" as the login route signs it. -/
def jonasClaims : JWTPayload :=
  { id := some 1, username := some "jonas", admin := some false }

/-- Literal string-equality stand-in for `bcrypt.compare` in witnesses. -/
def eqCompare (pw stored : String) : Bool := pw == stored

/-- C4 witness: "jonas" logs in at time 100 with lifetime 3600; the
token verifies at time 200 to exactly his claims. -/
theorem c4_witness :
    jwtVerify (jwtSign jonasClaims "topsecret" 100 3600) "topsecret" 200 =
      .ok jonasClaims :=
  (c4_login_token_roundtrip ⟨[jonas], [], []⟩ eqCompare "jonas" "hashedsecret123"
    "topsecret" 100 3600 200 jonas (jwtSign jonasClaims "topsecret" 100 3600) 3600
    (by decide) (by decide)).1

/-- C5: two-run indistinguishability of login failure: a login with a
username that exists in no row of the database and a login with an
existing username but a password rejected by the credential comparison
produce the very same response — the same `invalidCredentials` value,
status 401, body `Invalid credentials` — so a caller cannot tell an
unknown user from a wrong password. -/
theorem c5_login_failure_indistinguishable
    (db : DB) (compare : String → String → Bool)
    (u₁ pw₁ u₂ pw₂ secret : String) (now lifetime : Nat) (usr : User)
    (hu₁ : u₁ ≠ "") (hpw₁ : pw₁ ≠ "")
    (hu₂ : u₂ ≠ "") (hpw₂ : pw₂ ≠ "")
    (hnone : findUserByUsername db u₁ = none)
    (hsome : findUserByUsername db u₂ = some usr)
    (hwrong : compare pw₂ usr.password = false) :
    loginHandler db compare u₁ pw₁ secret now lifetime = .invalidCredentials ∧
    loginHandler db compare u₂ pw₂ secret now lifetime = .invalidCredentials ∧
    loginHandler db compare u₁ pw₁ secret now lifetime =
      loginHandler db compare u₂ pw₂ secret now lifetime ∧
    loginStatus .invalidCredentials = 401 ∧
    loginBody .invalidCredentials = some "Invalid credentials" := by
  have h₁ : loginHandler db compare u₁ pw₁ secret now lifetime = .invalidCredentials := by
    unfold loginHandler
    simp [hu₁, hpw₁, hnone]
  have h₂ : loginHandler db compare u₂ pw₂ secret now lifetime = .invalidCredentials := by
    unfold loginHandler
    simp [hu₂, hpw₂, hsome, hwrong]
  exact ⟨h₁, h₂, by rw [h₁, h₂], rfl, rfl⟩

/-- C5 witness: against a database holding only "jonas", logging in as
the unknown "maria" and logging in as "jonas" with a wrong password give
the identical 401 `Invalid credentials` response. -/
theorem c5_witness :
    loginHandler ⟨[jonas], [], []⟩ eqCompare "maria" "whatever" "topsecret" 100 3600 =
      .invalidCredentials ∧
    loginHandler ⟨[jonas], [], []⟩ eqCompare "jonas" "wrongpass" "topsecret" 100 3600 =
      .invalidCredentials := by
  have h := c5_login_failure_indistinguishable ⟨[jonas], [], []⟩ eqCompare
    "maria" "whatever" "jonas" "wrongpass" "topsecret" 100 3600 jonas
    (by decide) (by decide) (by decide) (by decide) (by decide) (by decide) (by decide)
  exact ⟨h.1, h.2.1⟩

/-- C6: for every request to an authenticated route, a missing or
non-Bearer `Authorization` header makes `authMiddleware` answer 401 with
the downstream handler never invoked; and every token-verification
failure — malformed token, bad signature, expiry — also answers 401,
with expired and invalid distinguished only in the body text, never in
the status code. -/
theorem c6_auth_middleware_terminal_401
    (secret : String) (now : Nat) :
    (∀ s : String,
      authMiddleware .missing secret now = .headerMissing ∧
      authMiddleware (.nonBearer s) secret now = .headerMissing ∧
      authFailureStatus .headerMissing = some 401 ∧
      downstreamInvoked .headerMissing = false) ∧
    (∀ wt : WireToken,
      (jwtVerifyWire wt secret now = .expired →
        authMiddleware (.bearer wt) secret now = .tokenExpiredErr) ∧
      (jwtVerifyWire wt secret now = .invalid →
        authMiddleware (.bearer wt) secret now = .tokenInvalidErr)) ∧
    authFailureStatus .tokenExpiredErr = some 401 ∧
    authFailureStatus .tokenInvalidErr = some 401 ∧
    authFailureStatus .tokenExpiredErr = authFailureStatus .tokenInvalidErr ∧
    authFailureBody .tokenExpiredErr ≠ authFailureBody .tokenInvalidErr ∧
    downstreamInvoked .tokenExpiredErr = false ∧
    downstreamInvoked .tokenInvalidErr = false := by
  refine ⟨fun s => ⟨rfl, rfl, rfl, rfl⟩, fun wt => ⟨fun h => ?_, fun h => ?_⟩,
    rfl, rfl, rfl, by decide, rfl, rfl⟩
  · simp only [authMiddleware, h]
  · simp only [authMiddleware, h]

/-- C6 witness: the concrete failures — no header, a non-Bearer header,
an expired token (signed for lifetime 10 at time 0, checked at time
100), and a token signed with a different secret — all answer 401. -/
theorem c6_witness :
    authMiddleware .missing "topsecret" 100 = .headerMissing ∧
    jwtVerifyWire (.parsed (jwtSign jonasClaims "topsecret" 0 10)) "topsecret" 100 =
      .expired ∧
    authMiddleware (.bearer (.parsed (jwtSign jonasClaims "topsecret" 0 10)))
      "topsecret" 100 = .tokenExpiredErr ∧
    jwtVerifyWire (.parsed (jwtSign jonasClaims "wrongsecret" 0 3600)) "topsecret" 100 =
      .invalid ∧
    authMiddleware (.bearer (.parsed (jwtSign jonasClaims "wrongsecret" 0 3600)))
      "topsecret" 100 = .tokenInvalidErr := by
  have h := c6_auth_middleware_terminal_401 "topsecret" 100
  refine ⟨(h.1 "x").1, by decide, ?_, by decide, ?_⟩
  · exact (h.2.1 (.parsed (jwtSign jonasClaims "topsecret" 0 10))).1 (by decide)
  · exact (h.2.1 (.parsed (jwtSign jonasClaims "wrongsecret" 0 3600))).2 (by decide)

/-- C9: for every request bearing a token that passes signature and
expiry verification but whose decoded payload has a missing or zero id,
or a missing or empty username, `authMiddleware` answers the 401
`Invalid token payload` response and the downstream handler is never
invoked; and a structurally valid payload lacking the `admin` field
yields an identity context with `admin` defaulted to `false`. -/
theorem c9_payload_structure_check
    (t : Token) (secret : String) (now : Nat)
    (hsec : t.secret = secret) (hexp : now < t.exp) :
    ((t.payload.id = none ∨ t.payload.id = some 0 ∨
      t.payload.username = none ∨ t.payload.username = some "") →
      authMiddleware (.bearer (.parsed t)) secret now = .payloadInvalid ∧
      authFailureStatus .payloadInvalid = some 401 ∧
      authFailureBody .payloadInvalid = some "Invalid token payload" ∧
      downstreamInvoked .payloadInvalid = false) ∧
    (∀ (i : Int) (uname : String), t.payload.id = some i →
      t.payload.username = some uname → t.payload.admin = none →
      i ≠ 0 → uname ≠ "" →
      authMiddleware (.bearer (.parsed t)) secret now =
        .ok { id := i, username := uname, admin := false }) := by
  have hver : jwtVerifyWire (.parsed t) secret now = .ok t.payload := by
    unfold jwtVerifyWire jwtVerify
    simp [hsec, Nat.not_le.mpr hexp]
  constructor
  · intro hbad
    refine ⟨?_, rfl, rfl, rfl⟩
    simp only [authMiddleware, hver]
    rcases hbad with h | h | h | h
    · simp [h]
    · cases hu : t.payload.username <;> simp [h, hu]
    · cases hi : t.payload.id <;> simp [h, hi]
    · cases hi : t.payload.id <;> simp [h, hi]
  · intro i uname hid huname hadmin hi hu
    simp only [authMiddleware, hver, hid, huname]
    simp [hi, hu, hadmin]

/-- A well-signed token whose payload has id 0 (falsy). -/
def tokBadId : Token :=
  jwtSign { id := some 0, username := some "jonas", admin := some false } "topsecret" 0 3600

/-- A well-signed token whose payload lacks the `admin` field. -/
def tokNoAdmin : Token :=
  jwtSign { id := some 1, username := some "jonas", admin := none } "topsecret" 0 3600

/-- C9 witness: a well-signed unexpired token with id 0 is rejected as
`Invalid token payload`; one with no `admin` claim yields a context with
`admin := false`. -/
theorem c9_witness :
    authMiddleware (.bearer (.parsed tokBadId)) "topsecret" 100 = .payloadInvalid ∧
    authMiddleware (.bearer (.parsed tokNoAdmin)) "topsecret" 100 =
      .ok { id := 1, username := "jonas", admin := false } :=
  ⟨((c9_payload_structure_check tokBadId "topsecret" 100 rfl (by decide)).1
      (Or.inr (Or.inl rfl))).1,
   (c9_payload_structure_check tokNoAdmin "topsecret" 100 rfl (by decide)).2
      1 "jonas" rfl rfl rfl (by decide) (by decide)⟩
